import Mathlib

/-!
# flox wrapper (`flox.c`)

A shallow embedding of `flox.c`: the launcher reads `LOCALE_ARCHIVE`, sets it to a
compiled-in default when it is absent, and replaces the process image with the
compiled-in target `FLOXSH`; `fatal` logs, prints and dies.

Conventions of the embedding.

* A C string (`const char *` pointing at a valid string) is represented by its contents,
  a `String` whose characters stand for the C `char`s before the terminating NUL.
* The process is a record `Proc` (environment, `errno`, and the list of observable
  events so far); library calls are functions on it.
* What the operating system decides (whether `setenv` and `execvp` fail and with which
  `errno`, the text of `strerror`, the program name printed by `verr`) is a parameter
  `Host`.
* The two macros supplied by the build (`-DLOCALE_ARCHIVE=...`, `-DFLOXSH=...`) are a
  parameter `Config`.
-/

namespace Flox

/-! ## Constants -/

/-- The two macros that the build passes on the compiler command line. -/
structure Config where
  /-- Default path of the locale archive. -/
  LOCALE_ARCHIVE : String
  /-- Path of the program to launch. -/
  FLOXSH : String
  deriving Repr, DecidableEq

/-- Source line 10: `#define LOG_STRERROR ": %m"`. -/
def LOG_STRERROR : String := ": %m"

/-- Value of `LOG_ERR` in `<syslog.h>`. -/
def LOG_ERR : Int := 3

/-- Value of `EXIT_FAILURE` in `<stdlib.h>`. -/
def EXIT_FAILURE : Int := 1

/-- The terminating character of a C string. -/
def NUL : Char := Char.ofNat 0

/-- Number of values of `size_t` (64-bit targets). -/
def SIZE_MOD : Nat := 2 ^ 64

/-- The C operator `sizeof` on a string literal: its characters and the terminating NUL. -/
def sizeof (literal : String) : Nat := literal.data.length + 1

/-! ## Environment -/

/-- The environment block: `NAME=value` entries in order. -/
abbrev Env := List (String × String)

/-- Value of the first entry called `name`, if there is one. -/
def Env.get : Env → String → Option String
  | [], _ => none
  | (k, v) :: rest, name => if k = name then some v else Env.get rest name

/-- Successful `setenv`: an existing entry is rewritten in place when `overwrite` is
non-zero and kept otherwise; a missing entry is added at the end. -/
def Env.set : Env → String → String → Int → Env
  | [], name, value, _ => [(name, value)]
  | (k, v) :: rest, name, value, overwrite =>
    if k = name then
      (if overwrite ≠ 0 then (k, value) :: rest else (k, v) :: rest)
    else (k, v) :: Env.set rest name value overwrite

/-! ## Processes, events and outcomes -/

/-- Observable actions of the process, in the order they happen. -/
inductive Event where
  /-- Call `getenv(name)`. -/
  | getenv (name : String)
  /-- Call `setenv(name, value, overwrite)`. -/
  | setenv (name value : String) (overwrite : Int)
  /-- Call `execvp(file, argv)` with the environment at the time of the call. -/
  | execvp (file : String) (argv : List String) (environ : Env)
  /-- One message handed to the system log. -/
  | syslog (priority : Int) (message : String)
  /-- One message written to standard error. -/
  | stderr (message : String)
  /-- Call `exit(status)`. -/
  | exit (status : Int)
  deriving Repr, DecidableEq

/-- Name of the library call behind an event. -/
def Event.call : Event → String
  | Event.getenv _ => "getenv"
  | Event.setenv _ _ _ => "setenv"
  | Event.execvp _ _ _ => "execvp"
  | Event.syslog _ _ => "vsyslog"
  | Event.stderr _ => "verr"
  | Event.exit _ => "exit"

/-- How the process ends. -/
inductive Outcome where
  /-- The call `execvp(file, argv)` succeeded: the process image was replaced, with this
  vector and this environment handed to the system. -/
  | replaced (file : String) (argv : List String) (environ : Env)
  /-- The process terminated with this exit status. -/
  | exited (status : Int)
  deriving Repr, DecidableEq

/-- A finished run: everything that happened and how it ended. -/
structure Run where
  trace : List Event
  outcome : Outcome
  deriving Repr, DecidableEq

/-- The running process. -/
structure Proc where
  environ : Env
  errno : Nat
  trace : List Event
  deriving Repr, DecidableEq

/-- Decisions of the operating system and the C library. -/
structure Host where
  /-- When `some e`, `setenv` returns -1 with `errno = e`; when `none` it succeeds. -/
  setenvError : Option Nat
  /-- When `some e`, `execvp` returns -1 with `errno = e`; when `none` the image is
  replaced. -/
  execvpError : Option Nat
  /-- Text of `strerror`. -/
  strerror : Nat → String
  /-- Program name printed by the `err` family. -/
  progname : String

/-- Result of a call: it returns a value, or the process has ended, or the behaviour is
undefined. -/
inductive Res (α : Type) where
  | ret (a : α) (p : Proc)
  | halt (r : Run)
  | undef

/-- Append an event to the trace of a process. -/
def Proc.emit (p : Proc) (e : Event) : Proc := { p with trace := p.trace ++ [e] }

/-! ## Library calls -/

/-- Library `getenv`. -/
def getenv (p : Proc) (name : String) : Option String × Proc :=
  (p.environ.get name, p.emit (Event.getenv name))

/-- Library `setenv`: returns 0 and updates the environment, or returns -1 with `errno`
set and the environment untouched. -/
def setenv (h : Host) (p : Proc) (name value : String) (overwrite : Int) : Int × Proc :=
  let p := p.emit (Event.setenv name value overwrite)
  match h.setenvError with
  | none => (0, { p with environ := p.environ.set name value overwrite })
  | some e => (-1, { p with errno := e })

/-- Library `exit`: the low eight bits of `status` become the exit status. -/
def exit (p : Proc) (status : Int) : Res Unit :=
  Res.halt ⟨p.trace ++ [Event.exit status], Outcome.exited (status % 256)⟩

/-- System call `execvp`: on success the image is replaced by the program `file`, which
is handed the vector `argv` and the current environment, and the call does not return;
on failure it returns -1 with `errno` set. -/
def execvp (h : Host) (p : Proc) (file : String) (argv : List String) : Res Int :=
  let p := p.emit (Event.execvp file argv p.environ)
  match h.execvpError with
  | none => Res.halt ⟨p.trace, Outcome.replaced file argv p.environ⟩
  | some e => Res.ret (-1) { p with errno := e }

/-- Expansion of a `printf` format: `%s` takes the next argument, `%m` is the error
text, `%%` is a percent sign, any other character is copied.  Other conversions and a
missing argument are undefined here. -/
def vformat (errstr : List Char) : List Char → List String → Option (List Char)
  | [], _ => some []
  | c :: rest, ap =>
    if c = '%' then
      match rest, ap with
      | d :: rest2, ap =>
        if d = 's' then
          match ap with
          | a :: ap2 => (vformat errstr rest2 ap2).map (fun out => a.data ++ out)
          | [] => none
        else if d = 'm' then (vformat errstr rest2 ap).map (fun out => errstr ++ out)
        else if d = '%' then (vformat errstr rest2 ap).map (fun out => '%' :: out)
        else none
      | [], _ => none
    else (vformat errstr rest ap).map (fun out => c :: out)

/-! ## Stack buffer -/

/-- A block of memory: each cell is indeterminate (`none`) or holds a character;
`writes` lists the indices stored to, oldest first. -/
structure Buf where
  cells : List (Option Char)
  writes : List Nat
  deriving Repr, DecidableEq

/-- Library `alloca`: a fresh block of `size` indeterminate cells. -/
def alloca (size : Nat) : Buf := ⟨List.replicate size none, []⟩

/-- Store one character at index `i`; storing outside the block is undefined. -/
def Buf.store (b : Buf) (i : Nat) (c : Char) : Option Buf :=
  if i < b.cells.length then some ⟨b.cells.set i (some c), b.writes ++ [i]⟩ else none

/-- Library `strlen`. -/
def strlen (s : String) : Nat := s.data.length

/-- Copy the characters `src` and then the terminating NUL to `dst + off`. -/
def strcpyChars (dst : Buf) (off : Nat) : List Char → Option Buf
  | [] => dst.store off NUL
  | c :: cs => (dst.store off c).bind (fun b => strcpyChars b (off + 1) cs)

/-- Library `strcpy(dst + off, src)`. -/
def strcpy (dst : Buf) (off : Nat) (src : String) : Option Buf :=
  strcpyChars dst off src.data

/-- Read the C string that starts at the head of `cells`: reading an indeterminate cell
or running past the end of the block is undefined. -/
def readCStr : List (Option Char) → Option (List Char)
  | [] => none
  | none :: _ => none
  | some c :: rest => if c = NUL then some [] else (readCStr rest).map (fun s => c :: s)

/-- Library `vsyslog(priority, format, ap)` with `format` pointing at the start of a
buffer: one message goes to the system log, `%m` standing for `strerror(errno)`.  It is
taken to leave `errno` as it found it. -/
def vsyslog (h : Host) (p : Proc) (priority : Int) (format : Buf) (ap : List String) :
    Res Unit :=
  match readCStr format.cells with
  | none => Res.undef
  | some fmt =>
    match vformat (h.strerror p.errno).data fmt ap with
    | none => Res.undef
    | some msg => Res.ret () (p.emit (Event.syslog priority (String.mk msg)))

/-- Library `verr(eval, fmt, ap)`: program name, formatted message, colon and space, the
text of `strerror(errno)` and a newline go to standard error, then `exit(eval)`. -/
def verr (h : Host) (p : Proc) (eval : Int) (fmt : String) (ap : List String) : Res Unit :=
  match vformat (h.strerror p.errno).data fmt.data ap with
  | none => Res.undef
  | some msg =>
    exit (p.emit (Event.stderr
      (h.progname ++ ": " ++ String.mk msg ++ ": " ++ h.strerror p.errno ++ "\n"))) eval

/-! ## The program -/

/-- Source lines 20-23 of `fatal`: the format for the system log, built in a block
obtained from `alloca`; the size is computed in `size_t`. -/
def fatalSformat (format : String) : Option Buf :=
  let len := strlen format
  let sformat := alloca ((len + sizeof LOG_STRERROR) % SIZE_MOD)
  match strcpy sformat 0 format with
  | none => none
  | some sformat => strcpy sformat len LOG_STRERROR

/-- Source lines 15-32: print and log a fatal error message (including a system error),
and die.  The argument list is restarted for each of the two calls, so both see `ap`. -/
def fatal (h : Host) (p : Proc) (format : String) (ap : List String) : Res Unit :=
  match fatalSformat format with
  | none => Res.undef
  | some sformat =>
    match vsyslog h p LOG_ERR sformat ap with
    | Res.ret _ p => verr h p EXIT_FAILURE format ap
    | Res.halt r => Res.halt r
    | Res.undef => Res.undef

/-- Source lines 57-61: run the command.  The value of `execvp` is not inspected: whenever
it returns, `fatal` is called.  Were `fatal` to return, control would reach the end of
`main`, which returns 0. -/
def mainExec (cfg : Config) (h : Host) (p : Proc) (argv : List String) : Res Int :=
  match execvp h p cfg.FLOXSH argv with
  | Res.ret _ p =>
    match fatal h p "%s" [cfg.FLOXSH] with
    | Res.ret _ p => Res.ret 0 p
    | Res.halt r => Res.halt r
    | Res.undef => Res.undef
  | Res.halt r => Res.halt r
  | Res.undef => Res.undef

/-- Source lines 35-62: function `main`; `argv` holds the `argc` argument strings.  Were
`fatal("setenv")` to return, control would go on to the `execvp` call. -/
def main (cfg : Config) (h : Host) (p : Proc) (argv : List String) : Res Int :=
  match getenv p "LOCALE_ARCHIVE" with
  | (localeArchive, p) =>
    if localeArchive = none then
      match setenv h p "LOCALE_ARCHIVE" cfg.LOCALE_ARCHIVE 1 with
      | (r, p) =>
        if r ≠ 0 then
          match fatal h p "setenv" [] with
          | Res.ret _ p => mainExec cfg h p argv
          | Res.halt r => Res.halt r
          | Res.undef => Res.undef
        else mainExec cfg h p argv
    else mainExec cfg h p argv

/-- The whole process: start-up calls `main` with the initial environment and passes its
return value to `exit`.  The result is `none` when the behaviour is undefined. -/
def start (cfg : Config) (h : Host) (environ : Env) (argv : List String) : Option Run :=
  match main cfg h ⟨environ, 0, []⟩ argv with
  | Res.ret v p =>
    match exit p v with
    | Res.halt r => some r
    | _ => none
  | Res.halt r => some r
  | Res.undef => none

/-! ## The started program -/

/-- How the system runs the file that a successful `execvp` resolved (manual pages
`execve(2)` and `execvp(3)`); it depends on the file, not on the wrapper. -/
inductive Image where
  /-- An executable image, run directly. -/
  | binary
  /-- A text file whose first line is `#!interp`, with an optional single argument. -/
  | script (interp : String) (arg : Option String)
  /-- A file of no recognised format: `execvp` has the default shell run it. -/
  | shell
  deriving Repr, DecidableEq

/-- What the system contributes to starting the target. -/
structure Target where
  /-- Kind of the file found. -/
  image : Image
  /-- Entry of `PATH` in which the file was found; not consulted when the file name
  contains a slash. -/
  dir : String
  /-- Whether the kernel starts a program that is given an empty vector with one empty
  string instead (Linux since 5.18). -/
  padsEmpty : Bool
  deriving Repr, DecidableEq

/-- Path that `execvp(file, ...)` executes: `file` itself when it contains a slash,
otherwise the entry of `PATH` joined with it (an empty entry is the current directory). -/
def execPath (file dir : String) : String :=
  if '/' ∈ file.data then file else if dir = "" then file else dir ++ "/" ++ file

/-- Vector with which the new process is started after `execvp(file, argv)` succeeded: a
binary gets `argv` as it is; for a script it is the interpreter, its optional argument,
the path executed, and then `argv` from element 1 on. -/
def processArgv (t : Target) (file : String) (argv : List String) : List String :=
  match t.image with
  | Image.binary => if argv = [] ∧ t.padsEmpty = true then [""] else argv
  | Image.script interp arg => interp :: (arg.toList ++ execPath file t.dir :: argv.tail)
  | Image.shell => "/bin/sh" :: execPath file t.dir :: argv.tail

/-- Name and arguments that the target itself observes: a binary sees the vector of its
process; a script sees what follows the interpreter and its optional argument. -/
def targetArgv (t : Target) (file : String) (argv : List String) : List String :=
  match t.image with
  | Image.binary => processArgv t file argv
  | Image.script _ arg => (processArgv t file argv).drop (1 + arg.toList.length)
  | Image.shell => (processArgv t file argv).drop 1

/-- Name and arguments observed by the program started at the end of a run, if one was
started. -/
def Outcome.observed (t : Target) : Outcome → Option (List String)
  | Outcome.replaced file argv _ => some (targetArgv t file argv)
  | Outcome.exited _ => none

/-! ## Example inputs -/

/-- A build configuration used in the examples. -/
def exampleConfig : Config :=
  ⟨"/usr/lib/locale/locale-archive", "/usr/libexec/flox/flox"⟩

/-- A host on which both calls succeed. -/
def hostOk : Host := ⟨none, none, fun _ => "Unknown error", "flox"⟩

/-- A host on which `setenv` fails with `ENOMEM`. -/
def hostNoMem : Host := ⟨some 12, none, fun _ => "Cannot allocate memory", "flox"⟩

/-- A target that is a binary, on a kernel that pads an empty vector. -/
def targetBinary : Target := ⟨Image.binary, "", true⟩

/-- A target that is a script for `/bin/bash`. -/
def targetScript : Target := ⟨Image.script "/bin/bash" none, "", true⟩

/-- A host on which `execvp` fails with `ENOENT`. -/
def hostNoEnt : Host := ⟨none, some 2, fun _ => "No such file or directory", "flox"⟩

/-! ## Auxiliary lemmas -/

theorem store_mid (pre post : List (Option Char)) (j : Option Char) (w : List Nat) (c : Char) :
    Buf.store ⟨pre ++ j :: post, w⟩ pre.length c
      = some ⟨pre ++ some c :: post, w ++ [pre.length]⟩ := by
  simp [Buf.store]

theorem strcpyChars_spec (src : List Char) :
    ∀ (pre junk post : List (Option Char)) (w : List Nat),
      junk.length = src.length + 1 →
      strcpyChars ⟨pre ++ (junk ++ post), w⟩ pre.length src
        = some ⟨pre ++ ((src.map some ++ [some NUL]) ++ post),
                w ++ List.range' pre.length (src.length + 1)⟩ := by
  induction src with
  | nil =>
    intro pre junk post w hj
    match junk, hj with
    | [j], _ => simp [strcpyChars, store_mid]
  | cons c cs ih =>
    intro pre junk post w hj
    match junk, hj with
    | j :: js, hj =>
      have hjs : js.length = cs.length + 1 := by simpa using hj
      have h1 := ih (pre ++ [some c]) js post (w ++ [pre.length]) hjs
      simp only [List.length_append, List.length_singleton, List.append_assoc,
        List.singleton_append] at h1
      simp only [strcpyChars, List.cons_append, store_mid, Option.bind_some,
        List.map_cons, List.length_cons]
      simp [List.range'_succ, h1]

theorem readCStr_spec (s : List Char) (rest : List (Option Char)) (hs : NUL ∉ s) :
    readCStr (s.map some ++ some NUL :: rest) = some s := by
  induction s with
  | nil => simp [readCStr]
  | cons c cs ih =>
    have hc : c ≠ NUL := fun h => hs (by simp [h])
    have hcs : NUL ∉ cs := fun h => hs (by simp [h])
    simp [readCStr, hc, ih hcs]


theorem fatalSformat_spec (format : String)
    (hsize : strlen format + sizeof LOG_STRERROR < SIZE_MOD) :
    fatalSformat format = some
      ⟨(format.data ++ LOG_STRERROR.data ++ [NUL]).map some,
        List.range' 0 (strlen format + 1) ++ List.range' (strlen format) 5⟩ := by
  have hmod : (strlen format + sizeof LOG_STRERROR) % SIZE_MOD
      = (format.data.length + 1) + 4 := Nat.mod_eq_of_lt hsize
  have h1 := strcpyChars_spec format.data [] (List.replicate (format.data.length + 1) none)
    (List.replicate 4 none) [] (by simp)
  have h2 := strcpyChars_spec LOG_STRERROR.data (format.data.map some)
    (some NUL :: List.replicate 4 none) [] (List.range' 0 (format.data.length + 1))
    (by simp [LOG_STRERROR])
  rw [List.length_nil, List.nil_append, List.nil_append] at h1
  rw [List.length_map, List.append_nil, List.append_nil] at h2
  rw [List.nil_append] at h1
  unfold fatalSformat strcpy alloca
  show (match strcpyChars ⟨List.replicate
      ((strlen format + sizeof LOG_STRERROR) % SIZE_MOD) none, []⟩ 0 format.data with
    | none => none
    | some sformat => strcpyChars sformat format.data.length LOG_STRERROR.data) = _
  rw [hmod, List.replicate_add, h1]
  simp only [List.append_assoc, List.singleton_append, h2]
  simp [LOG_STRERROR, strlen]


theorem fatal_setenv (h : Host) (p : Proc) :
    fatal h p "setenv" [] = Res.halt
      ⟨p.trace ++ [Event.syslog LOG_ERR ("setenv: " ++ h.strerror p.errno),
          Event.stderr (h.progname ++ ": setenv: " ++ h.strerror p.errno ++ "\n"),
          Event.exit EXIT_FAILURE], Outcome.exited EXIT_FAILURE⟩ := by
  simp [fatal, fatalSformat, strlen, sizeof, LOG_STRERROR, SIZE_MOD, alloca, strcpy,
    strcpyChars, Buf.store, vsyslog, readCStr, NUL, vformat, verr, exit, Proc.emit,
    EXIT_FAILURE]
  constructor <;> (apply String.ext; simp)

theorem fatal_path (h : Host) (p : Proc) (path : String) :
    fatal h p "%s" [path] = Res.halt
      ⟨p.trace ++ [Event.syslog LOG_ERR (path ++ ": " ++ h.strerror p.errno),
          Event.stderr (h.progname ++ ": " ++ path ++ ": " ++ h.strerror p.errno ++ "\n"),
          Event.exit EXIT_FAILURE], Outcome.exited EXIT_FAILURE⟩ := by
  simp [fatal, fatalSformat, strlen, sizeof, LOG_STRERROR, SIZE_MOD, alloca, strcpy,
    strcpyChars, Buf.store, vsyslog, readCStr, NUL, vformat, verr, exit, Proc.emit,
    EXIT_FAILURE]
  apply String.ext
  simp

theorem Env.get_set_self (env : Env) (name value : String) (overwrite : Int)
    (ho : overwrite ≠ 0) : Env.get (Env.set env name value overwrite) name = some value := by
  induction env with
  | nil => simp [Env.set, Env.get]
  | cons kv rest ih =>
    obtain ⟨k, v⟩ := kv
    by_cases hk : k = name
    · simp [Env.set, Env.get, hk, ho]
    · simp [Env.set, Env.get, hk, ih]

theorem Env.get_set_other (env : Env) (name value : String) (overwrite : Int)
    (other : String) (hne : other ≠ name) :
    Env.get (Env.set env name value overwrite) other = Env.get env other := by
  induction env with
  | nil => simp [Env.set, Env.get, Ne.symm hne]
  | cons kv rest ih =>
    obtain ⟨k, v⟩ := kv
    by_cases hk : k = name
    · by_cases ho : overwrite = 0
      · simp [Env.set, Env.get, hk, ho]
      · simp [Env.set, Env.get, hk, ho, Ne.symm hne]
    · by_cases hko : k = other
      · subst hko
        simp [Env.set, Env.get, hk]
      · simp [Env.set, Env.get, hk, hko, ih]

theorem mainExec_ok (cfg : Config) (h : Host) (p : Proc) (argv : List String)
    (hx : h.execvpError = none) :
    mainExec cfg h p argv = Res.halt
      ⟨p.trace ++ [Event.execvp cfg.FLOXSH argv p.environ],
        Outcome.replaced cfg.FLOXSH argv p.environ⟩ := by
  simp [mainExec, execvp, hx, Proc.emit]

theorem mainExec_fail (cfg : Config) (h : Host) (p : Proc) (argv : List String) (e : Nat)
    (hx : h.execvpError = some e) :
    mainExec cfg h p argv = Res.halt
      ⟨p.trace ++ [Event.execvp cfg.FLOXSH argv p.environ,
          Event.syslog LOG_ERR (cfg.FLOXSH ++ ": " ++ h.strerror e),
          Event.stderr (h.progname ++ ": " ++ cfg.FLOXSH ++ ": " ++ h.strerror e ++ "\n"),
          Event.exit EXIT_FAILURE], Outcome.exited EXIT_FAILURE⟩ := by
  simp [mainExec, execvp, hx, Proc.emit, fatal_path]

theorem main_present (cfg : Config) (h : Host) (p : Proc) (argv : List String) (v : String)
    (hv : Env.get p.environ "LOCALE_ARCHIVE" = some v) :
    main cfg h p argv
      = mainExec cfg h (p.emit (Event.getenv "LOCALE_ARCHIVE")) argv := by
  simp [main, getenv, hv]

theorem main_absent_fail (cfg : Config) (h : Host) (p : Proc) (argv : List String) (e : Nat)
    (hv : Env.get p.environ "LOCALE_ARCHIVE" = none) (hs : h.setenvError = some e) :
    main cfg h p argv = Res.halt
      ⟨p.trace ++ [Event.getenv "LOCALE_ARCHIVE",
          Event.setenv "LOCALE_ARCHIVE" cfg.LOCALE_ARCHIVE 1,
          Event.syslog LOG_ERR ("setenv: " ++ h.strerror e),
          Event.stderr (h.progname ++ ": setenv: " ++ h.strerror e ++ "\n"),
          Event.exit EXIT_FAILURE], Outcome.exited EXIT_FAILURE⟩ := by
  simp [main, getenv, hv, setenv, hs, fatal_setenv, Proc.emit]

theorem main_absent_ok (cfg : Config) (h : Host) (p : Proc) (argv : List String)
    (hv : Env.get p.environ "LOCALE_ARCHIVE" = none) (hs : h.setenvError = none) :
    main cfg h p argv
      = mainExec cfg h
          ⟨Env.set p.environ "LOCALE_ARCHIVE" cfg.LOCALE_ARCHIVE 1, p.errno,
            p.trace ++ [Event.getenv "LOCALE_ARCHIVE",
              Event.setenv "LOCALE_ARCHIVE" cfg.LOCALE_ARCHIVE 1]⟩ argv := by
  simp [main, getenv, hv, setenv, hs, Proc.emit]


theorem start_of_main (cfg : Config) (h : Host) (environ : Env) (argv : List String)
    (r : Run) (hm : main cfg h ⟨environ, 0, []⟩ argv = Res.halt r) :
    start cfg h environ argv = some r := by
  simp [start, hm]

theorem main_present_ok (cfg : Config) (h : Host) (environ : Env) (argv : List String)
    (v : String) (hv : Env.get environ "LOCALE_ARCHIVE" = some v)
    (hx : h.execvpError = none) :
    main cfg h ⟨environ, 0, []⟩ argv = Res.halt
      ⟨[Event.getenv "LOCALE_ARCHIVE", Event.execvp cfg.FLOXSH argv environ],
        Outcome.replaced cfg.FLOXSH argv environ⟩ := by
  rw [main_present cfg h _ argv v hv, mainExec_ok cfg h _ argv hx]
  simp [Proc.emit]

theorem main_present_fail (cfg : Config) (h : Host) (environ : Env) (argv : List String)
    (v : String) (e : Nat) (hv : Env.get environ "LOCALE_ARCHIVE" = some v)
    (hx : h.execvpError = some e) :
    main cfg h ⟨environ, 0, []⟩ argv = Res.halt
      ⟨[Event.getenv "LOCALE_ARCHIVE", Event.execvp cfg.FLOXSH argv environ,
          Event.syslog LOG_ERR (cfg.FLOXSH ++ ": " ++ h.strerror e),
          Event.stderr (h.progname ++ ": " ++ cfg.FLOXSH ++ ": " ++ h.strerror e ++ "\n"),
          Event.exit EXIT_FAILURE], Outcome.exited EXIT_FAILURE⟩ := by
  rw [main_present cfg h _ argv v hv, mainExec_fail cfg h _ argv e hx]
  simp [Proc.emit]

theorem main_absent_ok_ok (cfg : Config) (h : Host) (environ : Env) (argv : List String)
    (hv : Env.get environ "LOCALE_ARCHIVE" = none) (hs : h.setenvError = none)
    (hx : h.execvpError = none) :
    main cfg h ⟨environ, 0, []⟩ argv = Res.halt
      ⟨[Event.getenv "LOCALE_ARCHIVE", Event.setenv "LOCALE_ARCHIVE" cfg.LOCALE_ARCHIVE 1,
          Event.execvp cfg.FLOXSH argv (Env.set environ "LOCALE_ARCHIVE" cfg.LOCALE_ARCHIVE 1)],
        Outcome.replaced cfg.FLOXSH argv
          (Env.set environ "LOCALE_ARCHIVE" cfg.LOCALE_ARCHIVE 1)⟩ := by
  rw [main_absent_ok cfg h _ argv hv hs, mainExec_ok cfg h _ argv hx]
  simp

theorem main_absent_ok_fail (cfg : Config) (h : Host) (environ : Env) (argv : List String)
    (e : Nat) (hv : Env.get environ "LOCALE_ARCHIVE" = none) (hs : h.setenvError = none)
    (hx : h.execvpError = some e) :
    main cfg h ⟨environ, 0, []⟩ argv = Res.halt
      ⟨[Event.getenv "LOCALE_ARCHIVE", Event.setenv "LOCALE_ARCHIVE" cfg.LOCALE_ARCHIVE 1,
          Event.execvp cfg.FLOXSH argv (Env.set environ "LOCALE_ARCHIVE" cfg.LOCALE_ARCHIVE 1),
          Event.syslog LOG_ERR (cfg.FLOXSH ++ ": " ++ h.strerror e),
          Event.stderr (h.progname ++ ": " ++ cfg.FLOXSH ++ ": " ++ h.strerror e ++ "\n"),
          Event.exit EXIT_FAILURE], Outcome.exited EXIT_FAILURE⟩ := by
  rw [main_absent_ok cfg h _ argv hv hs, mainExec_fail cfg h _ argv e hx]
  simp

theorem main_absent_failed (cfg : Config) (h : Host) (environ : Env) (argv : List String)
    (e : Nat) (hv : Env.get environ "LOCALE_ARCHIVE" = none) (hs : h.setenvError = some e) :
    main cfg h ⟨environ, 0, []⟩ argv = Res.halt
      ⟨[Event.getenv "LOCALE_ARCHIVE", Event.setenv "LOCALE_ARCHIVE" cfg.LOCALE_ARCHIVE 1,
          Event.syslog LOG_ERR ("setenv: " ++ h.strerror e),
          Event.stderr (h.progname ++ ": setenv: " ++ h.strerror e ++ "\n"),
          Event.exit EXIT_FAILURE], Outcome.exited EXIT_FAILURE⟩ := by
  rw [main_absent_fail cfg h _ argv e hv hs]
  simp

/-! ## The claims -/

/-- C1: when `LOCALE_ARCHIVE` is present with any value `v` (the empty string included),
the run is defined, contains no `setenv` call, reaches `execvp` with the initial
environment, and every environment handed to `execvp` maps `LOCALE_ARCHIVE` to `v`. -/
theorem C1_present_left_unchanged (cfg : Config) (h : Host) (environ : Env)
    (argv : List String) (v : String)
    (hv : Env.get environ "LOCALE_ARCHIVE" = some v) :
    ∃ r, start cfg h environ argv = some r ∧
      (∀ n val ow, Event.setenv n val ow ∉ r.trace) ∧
      Event.execvp cfg.FLOXSH argv environ ∈ r.trace ∧
      (∀ f a env, Event.execvp f a env ∈ r.trace →
        env = environ ∧ Env.get env "LOCALE_ARCHIVE" = some v) := by
  cases hx : h.execvpError with
  | none =>
    refine ⟨_, start_of_main _ _ _ _ _ (main_present_ok cfg h environ argv v hv hx), ?_, ?_, ?_⟩
    · simp
    · simp
    · intro f a env hmem
      simp at hmem
      obtain ⟨-, -, rfl⟩ := hmem
      exact ⟨rfl, hv⟩
  | some e =>
    refine ⟨_, start_of_main _ _ _ _ _ (main_present_fail cfg h environ argv v e hv hx),
      ?_, ?_, ?_⟩
    · simp
    · simp
    · intro f a env hmem
      simp at hmem
      obtain ⟨-, -, rfl⟩ := hmem
      exact ⟨rfl, hv⟩

/-- Witness of C1 at an environment where `LOCALE_ARCHIVE` is the empty string. -/
theorem C1_present_left_unchanged_witness :
    Env.get [("PATH", "/bin"), ("LOCALE_ARCHIVE", "")] "LOCALE_ARCHIVE" = some "" ∧
    ∃ r, start exampleConfig hostOk [("PATH", "/bin"), ("LOCALE_ARCHIVE", "")]
        ["flox", "--version"] = some r ∧
      (∀ n val ow, Event.setenv n val ow ∉ r.trace) ∧
      Event.execvp exampleConfig.FLOXSH ["flox", "--version"]
        [("PATH", "/bin"), ("LOCALE_ARCHIVE", "")] ∈ r.trace ∧
      (∀ f a env, Event.execvp f a env ∈ r.trace →
        env = [("PATH", "/bin"), ("LOCALE_ARCHIVE", "")] ∧
        Env.get env "LOCALE_ARCHIVE" = some "") :=
  ⟨by decide,
    C1_present_left_unchanged exampleConfig hostOk
      [("PATH", "/bin"), ("LOCALE_ARCHIVE", "")] ["flox", "--version"] "" (by decide)⟩

/-- C2: when `LOCALE_ARCHIVE` is absent and `setenv` succeeds, the run is defined, its
trace starts with the `getenv` call, then the `setenv` call with the compiled-in default,
then the `execvp` call, and the environment handed to `execvp` maps `LOCALE_ARCHIVE` to
the compiled-in default. -/
theorem C2_absent_set_to_default (cfg : Config) (h : Host) (environ : Env)
    (argv : List String)
    (hv : Env.get environ "LOCALE_ARCHIVE" = none) (hs : h.setenvError = none) :
    ∃ r env post, start cfg h environ argv = some r ∧
      r.trace = [Event.getenv "LOCALE_ARCHIVE",
        Event.setenv "LOCALE_ARCHIVE" cfg.LOCALE_ARCHIVE 1,
        Event.execvp cfg.FLOXSH argv env] ++ post ∧
      Env.get env "LOCALE_ARCHIVE" = some cfg.LOCALE_ARCHIVE ∧
      (∀ f a env2, Event.execvp f a env2 ∈ r.trace →
        Env.get env2 "LOCALE_ARCHIVE" = some cfg.LOCALE_ARCHIVE) := by
  have hset := Env.get_set_self environ "LOCALE_ARCHIVE" cfg.LOCALE_ARCHIVE 1 (by decide)
  cases hx : h.execvpError with
  | none =>
    refine ⟨_, _, [], start_of_main _ _ _ _ _ (main_absent_ok_ok cfg h environ argv hv hs hx),
      rfl, hset, ?_⟩
    intro f a env2 hmem
    simp at hmem
    obtain ⟨-, -, rfl⟩ := hmem
    exact hset
  | some e =>
    refine ⟨_, _, _, start_of_main _ _ _ _ _
      (main_absent_ok_fail cfg h environ argv e hv hs hx), rfl, hset, ?_⟩
    intro f a env2 hmem
    simp at hmem
    obtain ⟨-, -, rfl⟩ := hmem
    exact hset

/-- Witness of C2 at an environment without `LOCALE_ARCHIVE`. -/
theorem C2_absent_set_to_default_witness :
    (Env.get [("PATH", "/bin")] "LOCALE_ARCHIVE" = none ∧ hostOk.setenvError = none) ∧
    ∃ r env post, start exampleConfig hostOk [("PATH", "/bin")] ["flox"] = some r ∧
      r.trace = [Event.getenv "LOCALE_ARCHIVE",
        Event.setenv "LOCALE_ARCHIVE" exampleConfig.LOCALE_ARCHIVE 1,
        Event.execvp exampleConfig.FLOXSH ["flox"] env] ++ post ∧
      Env.get env "LOCALE_ARCHIVE" = some exampleConfig.LOCALE_ARCHIVE ∧
      (∀ f a env2, Event.execvp f a env2 ∈ r.trace →
        Env.get env2 "LOCALE_ARCHIVE" = some exampleConfig.LOCALE_ARCHIVE) :=
  ⟨⟨by decide, rfl⟩,
    C2_absent_set_to_default exampleConfig hostOk [("PATH", "/bin")] ["flox"]
      (by decide) rfl⟩

/-- Every `execvp` event of a defined run of `main` carries the file `FLOXSH` and the
vector `argv`, and its environment agrees with the initial one except possibly at
`LOCALE_ARCHIVE`; a `setenv` event names `LOCALE_ARCHIVE` and occurs only when that
variable was absent. -/
theorem main_events (cfg : Config) (h : Host) (environ : Env) (argv : List String) :
    ∃ r, main cfg h ⟨environ, 0, []⟩ argv = Res.halt r ∧
      (∀ f a env, Event.execvp f a env ∈ r.trace →
        f = cfg.FLOXSH ∧ a = argv ∧
        (env = environ ∨ (Env.get environ "LOCALE_ARCHIVE" = none ∧
          env = Env.set environ "LOCALE_ARCHIVE" cfg.LOCALE_ARCHIVE 1))) ∧
      (∀ f a env, r.outcome = Outcome.replaced f a env →
        Event.execvp f a env ∈ r.trace) ∧
      (∀ n v o, Event.setenv n v o ∈ r.trace →
        n = "LOCALE_ARCHIVE" ∧ Env.get environ "LOCALE_ARCHIVE" = none) ∧
      ((Env.get environ "LOCALE_ARCHIVE" ≠ none ∨ h.setenvError = none) →
        ∃ env, Event.execvp cfg.FLOXSH argv env ∈ r.trace) := by
  cases hv : Env.get environ "LOCALE_ARCHIVE" with
  | some v =>
    cases hx : h.execvpError with
    | none =>
      refine ⟨_, main_present_ok cfg h environ argv v hv hx, ?_, ?_, ?_, ?_⟩
      · intro f a env hmem
        simp at hmem
        simp [hmem]
      · intro f a env hout
        simp at hout
        simp [hout]
      · simp
      · intro _
        exact ⟨environ, by simp⟩
    | some e =>
      refine ⟨_, main_present_fail cfg h environ argv v e hv hx, ?_, ?_, ?_, ?_⟩
      · intro f a env hmem
        simp at hmem
        simp [hmem]
      · simp
      · simp
      · intro _
        exact ⟨environ, by simp⟩
  | none =>
    cases hs : h.setenvError with
    | some e =>
      refine ⟨_, main_absent_failed cfg h environ argv e hv hs, ?_, ?_, ?_, ?_⟩
      · simp
      · simp
      · intro n v o hmem
        simp at hmem
        simp [hmem]
      · simp
    | none =>
      cases hx : h.execvpError with
      | none =>
        refine ⟨_, main_absent_ok_ok cfg h environ argv hv hs hx, ?_, ?_, ?_, ?_⟩
        · intro f a env hmem
          simp at hmem
          simp [hmem]
        · intro f a env hout
          simp at hout
          simp [hout]
        · intro n v o hmem
          simp at hmem
          simp [hmem]
        · intro _
          exact ⟨Env.set environ "LOCALE_ARCHIVE" cfg.LOCALE_ARCHIVE 1, by simp⟩
      | some e =>
        refine ⟨_, main_absent_ok_fail cfg h environ argv e hv hs hx, ?_, ?_, ?_, ?_⟩
        · intro f a env hmem
          simp at hmem
          simp [hmem]
        · simp
        · intro n v o hmem
          simp at hmem
          simp [hmem]
        · intro _
          exact ⟨Env.set environ "LOCALE_ARCHIVE" cfg.LOCALE_ARCHIVE 1, by simp⟩

/-- C3: for every argument vector (the empty one and any strings included) the run is
defined, every `execvp` call, the successful one included, is handed exactly the vector
`main` received, and `execvp` is reached unless `setenv` was needed and failed. -/
theorem C3_argv_forwarded_unchanged (cfg : Config) (h : Host) (environ : Env)
    (argv : List String) :
    ∃ r, start cfg h environ argv = some r ∧
      (∀ f a env, Event.execvp f a env ∈ r.trace → a = argv) ∧
      (∀ f a env, r.outcome = Outcome.replaced f a env → a = argv) ∧
      ((Env.get environ "LOCALE_ARCHIVE" ≠ none ∨ h.setenvError = none) →
        ∃ env, Event.execvp cfg.FLOXSH argv env ∈ r.trace) := by
  obtain ⟨r, hm, hex, hout, -, hreach⟩ := main_events cfg h environ argv
  refine ⟨r, start_of_main _ _ _ _ _ hm, ?_, ?_, hreach⟩
  · intro f a env hmem
    exact (hex f a env hmem).2.1
  · intro f a env ho
    exact (hex f a env (hout f a env ho)).2.1

/-- The target of a script or shell-run file observes the executed path followed by the
arguments from element 1 on. -/
theorem targetArgv_interpreted (t : Target) (file : String) (argv : List String)
    (himg : t.image ≠ Image.binary) :
    targetArgv t file argv = execPath file t.dir :: argv.tail := by
  cases hi : t.image with
  | binary => exact absurd hi himg
  | script interp arg =>
    cases arg with
    | none => simp [targetArgv, processArgv, hi]
    | some o => simp [targetArgv, processArgv, hi]
  | shell => simp [targetArgv, processArgv, hi]

/-- C4 as stated fails: with a binary target, the wrapper started as
`flox --foo "bar baz"` calls `execvp` with file `FLOXSH` and the vector it received, and
the target observes element 0 `flox`, not the path `FLOXSH`. -/
theorem C4_argv0_replaced_counterexample :
    start exampleConfig hostOk [] ["flox", "--foo", "bar baz"] = some
      ⟨[Event.getenv "LOCALE_ARCHIVE",
          Event.setenv "LOCALE_ARCHIVE" "/usr/lib/locale/locale-archive" 1,
          Event.execvp "/usr/libexec/flox/flox" ["flox", "--foo", "bar baz"]
            [("LOCALE_ARCHIVE", "/usr/lib/locale/locale-archive")]],
        Outcome.replaced "/usr/libexec/flox/flox" ["flox", "--foo", "bar baz"]
          [("LOCALE_ARCHIVE", "/usr/lib/locale/locale-archive")]⟩ ∧
    (Outcome.replaced "/usr/libexec/flox/flox" ["flox", "--foo", "bar baz"]
        [("LOCALE_ARCHIVE", "/usr/lib/locale/locale-archive")]).observed targetBinary
      = some ["flox", "--foo", "bar baz"] ∧
    ["flox", "--foo", "bar baz"] ≠ [exampleConfig.FLOXSH, "--foo", "bar baz"] := by
  refine ⟨?_, ?_, ?_⟩
  · exact start_of_main _ _ _ _ _
      (main_absent_ok_ok exampleConfig hostOk [] ["flox", "--foo", "bar baz"] rfl rfl rfl)
  · simp [Outcome.observed, targetArgv, processArgv, targetBinary]
  · decide

/-- C4, amended: whenever `execvp` is reached and succeeds, the run is defined and ends
with the image replaced; `execvp` was called with file `FLOXSH` and exactly the vector
`main` received, element 0 included.  A target run through an interpreter (a script, or
a file run by the default shell) observes the executed path, which is `FLOXSH` itself
when `FLOXSH` contains a slash, followed by the original extra arguments in order.  A
binary target observes the vector unchanged, so its element 0 is the one `main`
received (for an empty vector: nothing, or one empty string where the kernel pads). -/
theorem C4_target_argv (cfg : Config) (h : Host) (environ : Env) (argv : List String)
    (t : Target)
    (hreach : Env.get environ "LOCALE_ARCHIVE" ≠ none ∨ h.setenvError = none)
    (hok : h.execvpError = none) :
    ∃ r env, start cfg h environ argv = some r ∧
      r.outcome = Outcome.replaced cfg.FLOXSH argv env ∧
      Event.execvp cfg.FLOXSH argv env ∈ r.trace ∧
      (∀ f a env2, Event.execvp f a env2 ∈ r.trace → f = cfg.FLOXSH ∧ a = argv) ∧
      (t.image ≠ Image.binary →
        r.outcome.observed t = some (execPath cfg.FLOXSH t.dir :: argv.tail)) ∧
      ('/' ∈ cfg.FLOXSH.data → execPath cfg.FLOXSH t.dir = cfg.FLOXSH) ∧
      (t.image = Image.binary → argv ≠ [] → r.outcome.observed t = some argv) ∧
      (t.image = Image.binary → argv = [] →
        r.outcome.observed t = some (if t.padsEmpty = true then [""] else [])) := by
  have hobs : ∀ env : Env,
      (t.image ≠ Image.binary →
        (Outcome.replaced cfg.FLOXSH argv env).observed t
          = some (execPath cfg.FLOXSH t.dir :: argv.tail)) ∧
      ('/' ∈ cfg.FLOXSH.data → execPath cfg.FLOXSH t.dir = cfg.FLOXSH) ∧
      (t.image = Image.binary → argv ≠ [] →
        (Outcome.replaced cfg.FLOXSH argv env).observed t = some argv) ∧
      (t.image = Image.binary → argv = [] →
        (Outcome.replaced cfg.FLOXSH argv env).observed t
          = some (if t.padsEmpty = true then [""] else [])) := by
    intro env
    refine ⟨?_, ?_, ?_, ?_⟩
    · intro himg
      simp [Outcome.observed, targetArgv_interpreted t cfg.FLOXSH argv himg]
    · intro hslash
      simp [execPath, hslash]
    · intro himg hne
      simp [Outcome.observed, targetArgv, processArgv, himg, hne]
    · intro himg hnil
      simp [Outcome.observed, targetArgv, processArgv, himg, hnil]
  cases hv : Env.get environ "LOCALE_ARCHIVE" with
  | some v =>
    refine ⟨_, environ, start_of_main _ _ _ _ _ (main_present_ok cfg h environ argv v hv hok),
      rfl, by simp, ?_, hobs environ⟩
    intro f a env2 hmem
    simp at hmem
    simp [hmem]
  | none =>
    have hs : h.setenvError = none := by
      rcases hreach with hc | hc
      · exact absurd hv hc
      · exact hc
    refine ⟨_, Env.set environ "LOCALE_ARCHIVE" cfg.LOCALE_ARCHIVE 1,
      start_of_main _ _ _ _ _ (main_absent_ok_ok cfg h environ argv hv hs hok),
      rfl, by simp, ?_, hobs _⟩
    intro f a env2 hmem
    simp at hmem
    simp [hmem]

/-- Witness of C4 (amended) with a script target: the script observes `FLOXSH` and then
the extra arguments. -/
theorem C4_target_argv_witness :
    ((Env.get [] "LOCALE_ARCHIVE" ≠ none ∨ hostOk.setenvError = none) ∧
      hostOk.execvpError = none) ∧
    ∃ r env, start exampleConfig hostOk [] ["flox", "--foo", "bar baz"] = some r ∧
      r.outcome = Outcome.replaced exampleConfig.FLOXSH ["flox", "--foo", "bar baz"] env ∧
      Event.execvp exampleConfig.FLOXSH ["flox", "--foo", "bar baz"] env ∈ r.trace ∧
      (∀ f a env2, Event.execvp f a env2 ∈ r.trace →
        f = exampleConfig.FLOXSH ∧ a = ["flox", "--foo", "bar baz"]) ∧
      (targetScript.image ≠ Image.binary →
        r.outcome.observed targetScript
          = some (execPath exampleConfig.FLOXSH targetScript.dir
              :: ["flox", "--foo", "bar baz"].tail)) ∧
      ('/' ∈ exampleConfig.FLOXSH.data →
        execPath exampleConfig.FLOXSH targetScript.dir = exampleConfig.FLOXSH) ∧
      (targetScript.image = Image.binary → ["flox", "--foo", "bar baz"] ≠ [] →
        r.outcome.observed targetScript = some ["flox", "--foo", "bar baz"]) ∧
      (targetScript.image = Image.binary → ["flox", "--foo", "bar baz"] = [] →
        r.outcome.observed targetScript
          = some (if targetScript.padsEmpty = true then [""] else [])) :=
  ⟨⟨Or.inr rfl, rfl⟩,
    C4_target_argv exampleConfig hostOk [] ["flox", "--foo", "bar baz"] targetScript
      (Or.inr rfl) rfl⟩

/-- C5: when `LOCALE_ARCHIVE` is absent and `setenv` fails with error `e`, the run is
defined and consists of the `getenv` call, the failed `setenv` call, the two diagnostics
of `fatal("setenv")` and `exit(EXIT_FAILURE)`; the exit status is `EXIT_FAILURE`, which
is not zero, and no `execvp` call occurs. -/
theorem C5_setenv_failure_is_fatal (cfg : Config) (h : Host) (environ : Env)
    (argv : List String) (e : Nat)
    (hv : Env.get environ "LOCALE_ARCHIVE" = none) (hs : h.setenvError = some e) :
    ∃ r, start cfg h environ argv = some r ∧
      r.trace = [Event.getenv "LOCALE_ARCHIVE",
        Event.setenv "LOCALE_ARCHIVE" cfg.LOCALE_ARCHIVE 1,
        Event.syslog LOG_ERR ("setenv: " ++ h.strerror e),
        Event.stderr (h.progname ++ ": setenv: " ++ h.strerror e ++ "\n"),
        Event.exit EXIT_FAILURE] ∧
      r.outcome = Outcome.exited EXIT_FAILURE ∧ EXIT_FAILURE ≠ 0 ∧
      (∀ f a env, Event.execvp f a env ∉ r.trace) := by
  refine ⟨_, start_of_main _ _ _ _ _ (main_absent_failed cfg h environ argv e hv hs),
    rfl, rfl, by decide, ?_⟩
  simp

/-- Witness of C5 on a host where `setenv` fails with `ENOMEM`. -/
theorem C5_setenv_failure_is_fatal_witness :
    (Env.get [("PATH", "/bin")] "LOCALE_ARCHIVE" = none ∧
      hostNoMem.setenvError = some 12) ∧
    ∃ r, start exampleConfig hostNoMem [("PATH", "/bin")] ["flox"] = some r ∧
      r.trace = [Event.getenv "LOCALE_ARCHIVE",
        Event.setenv "LOCALE_ARCHIVE" exampleConfig.LOCALE_ARCHIVE 1,
        Event.syslog LOG_ERR ("setenv: " ++ hostNoMem.strerror 12),
        Event.stderr (hostNoMem.progname ++ ": setenv: " ++ hostNoMem.strerror 12 ++ "\n"),
        Event.exit EXIT_FAILURE] ∧
      r.outcome = Outcome.exited EXIT_FAILURE ∧ EXIT_FAILURE ≠ 0 ∧
      (∀ f a env, Event.execvp f a env ∉ r.trace) :=
  ⟨⟨by decide, rfl⟩,
    C5_setenv_failure_is_fatal exampleConfig hostNoMem [("PATH", "/bin")] ["flox"] 12
      (by decide) rfl⟩

/-- C6: when `execvp` is called and returns with error `e`, the run is defined and ends
with the `execvp` call, a system-log message and a standard-error message that both
contain `FLOXSH` verbatim followed by the text of `strerror(e)`, and `exit(EXIT_FAILURE)`;
the exit status is `EXIT_FAILURE`, which is not zero.  The path is an argument of the
format `%s`: expanding that format yields the path itself, whatever its characters. -/
theorem C6_exec_failure_is_fatal (cfg : Config) (h : Host) (environ : Env)
    (argv : List String) (e : Nat)
    (hcall : Env.get environ "LOCALE_ARCHIVE" ≠ none ∨ h.setenvError = none)
    (hx : h.execvpError = some e) :
    ∃ r pre env, start cfg h environ argv = some r ∧
      r.trace = pre ++ [Event.execvp cfg.FLOXSH argv env,
        Event.syslog LOG_ERR (cfg.FLOXSH ++ ": " ++ h.strerror e),
        Event.stderr (h.progname ++ ": " ++ cfg.FLOXSH ++ ": " ++ h.strerror e ++ "\n"),
        Event.exit EXIT_FAILURE] ∧
      r.outcome = Outcome.exited EXIT_FAILURE ∧ EXIT_FAILURE ≠ 0 ∧
      (∀ errstr, vformat errstr "%s".data [cfg.FLOXSH] = some cfg.FLOXSH.data) := by
  have hfmt : ∀ errstr, vformat errstr "%s".data [cfg.FLOXSH] = some cfg.FLOXSH.data := by
    intro errstr
    simp [vformat]
  cases hv : Env.get environ "LOCALE_ARCHIVE" with
  | some v =>
    exact ⟨_, [Event.getenv "LOCALE_ARCHIVE"], environ,
      start_of_main _ _ _ _ _ (main_present_fail cfg h environ argv v e hv hx),
      rfl, rfl, by decide, hfmt⟩
  | none =>
    have hs : h.setenvError = none := by
      rcases hcall with hc | hc
      · exact absurd hv hc
      · exact hc
    exact ⟨_, [Event.getenv "LOCALE_ARCHIVE",
        Event.setenv "LOCALE_ARCHIVE" cfg.LOCALE_ARCHIVE 1],
      Env.set environ "LOCALE_ARCHIVE" cfg.LOCALE_ARCHIVE 1,
      start_of_main _ _ _ _ _ (main_absent_ok_fail cfg h environ argv e hv hs hx),
      rfl, rfl, by decide, hfmt⟩

/-- Witness of C6 with a target path that contains conversion characters, on a host
where `execvp` fails with `ENOENT`. -/
theorem C6_exec_failure_is_fatal_witness :
    ((Env.get [] "LOCALE_ARCHIVE" ≠ none ∨ hostNoEnt.setenvError = none) ∧
      hostNoEnt.execvpError = some 2) ∧
    ∃ r pre env,
      start ⟨"/usr/lib/locale/locale-archive", "/opt/%s%m/flox"⟩ hostNoEnt [] ["flox"]
        = some r ∧
      r.trace = pre ++ [Event.execvp "/opt/%s%m/flox" ["flox"] env,
        Event.syslog LOG_ERR ("/opt/%s%m/flox" ++ ": " ++ hostNoEnt.strerror 2),
        Event.stderr (hostNoEnt.progname ++ ": " ++ "/opt/%s%m/flox" ++ ": "
          ++ hostNoEnt.strerror 2 ++ "\n"),
        Event.exit EXIT_FAILURE] ∧
      r.outcome = Outcome.exited EXIT_FAILURE ∧ EXIT_FAILURE ≠ 0 ∧
      (∀ errstr, vformat errstr "%s".data ["/opt/%s%m/flox"]
        = some "/opt/%s%m/flox".data) :=
  ⟨⟨Or.inr rfl, rfl⟩,
    C6_exec_failure_is_fatal ⟨"/usr/lib/locale/locale-archive", "/opt/%s%m/flox"⟩
      hostNoEnt [] ["flox"] 2 (Or.inr rfl) rfl⟩

/-- C7: for every variable name other than `LOCALE_ARCHIVE`, the run is defined and every
environment handed to `execvp`, the successful call included, has that variable in the
same state as the initial environment; when `LOCALE_ARCHIVE` was present the
environment is the initial one; any `setenv` call names `LOCALE_ARCHIVE` and occurs only
when that variable was initially absent. -/
theorem C7_other_variables_pass_through (cfg : Config) (h : Host) (environ : Env)
    (argv : List String) (name : String) (hne : name ≠ "LOCALE_ARCHIVE") :
    ∃ r, start cfg h environ argv = some r ∧
      (∀ f a env, Event.execvp f a env ∈ r.trace →
        Env.get env name = Env.get environ name) ∧
      (∀ f a env, r.outcome = Outcome.replaced f a env →
        Env.get env name = Env.get environ name) ∧
      (∀ f a env, Event.execvp f a env ∈ r.trace →
        Env.get environ "LOCALE_ARCHIVE" ≠ none → env = environ) ∧
      (∀ n v o, Event.setenv n v o ∈ r.trace →
        n = "LOCALE_ARCHIVE" ∧ Env.get environ "LOCALE_ARCHIVE" = none) ∧
      ((Env.get environ "LOCALE_ARCHIVE" ≠ none ∨ h.setenvError = none) →
        ∃ env, Event.execvp cfg.FLOXSH argv env ∈ r.trace) := by
  obtain ⟨r, hm, hex, hout, hset, hreach⟩ := main_events cfg h environ argv
  have hsame : ∀ f a env, Event.execvp f a env ∈ r.trace →
      Env.get env name = Env.get environ name := by
    intro f a env hmem
    rcases (hex f a env hmem).2.2 with henv | ⟨-, henv⟩
    · rw [henv]
    · rw [henv]
      exact Env.get_set_other environ "LOCALE_ARCHIVE" cfg.LOCALE_ARCHIVE 1 name hne
  refine ⟨r, start_of_main _ _ _ _ _ hm, hsame, ?_, ?_, hset, hreach⟩
  · intro f a env ho
    exact hsame f a env (hout f a env ho)
  · intro f a env hmem hpresent
    rcases (hex f a env hmem).2.2 with henv | ⟨habsent, -⟩
    · exact henv
    · exact absurd habsent hpresent

/-- Witness of C7 for the variable `PATH`. -/
theorem C7_other_variables_pass_through_witness :
    "PATH" ≠ "LOCALE_ARCHIVE" ∧
    ∃ r, start exampleConfig hostOk [("PATH", "/bin")] ["flox"] = some r ∧
      (∀ f a env, Event.execvp f a env ∈ r.trace →
        Env.get env "PATH" = Env.get [("PATH", "/bin")] "PATH") ∧
      (∀ f a env, r.outcome = Outcome.replaced f a env →
        Env.get env "PATH" = Env.get [("PATH", "/bin")] "PATH") ∧
      (∀ f a env, Event.execvp f a env ∈ r.trace →
        Env.get [("PATH", "/bin")] "LOCALE_ARCHIVE" ≠ none → env = [("PATH", "/bin")]) ∧
      (∀ n v o, Event.setenv n v o ∈ r.trace →
        n = "LOCALE_ARCHIVE" ∧ Env.get [("PATH", "/bin")] "LOCALE_ARCHIVE" = none) ∧
      ((Env.get [("PATH", "/bin")] "LOCALE_ARCHIVE" ≠ none ∨ hostOk.setenvError = none) →
        ∃ env, Event.execvp exampleConfig.FLOXSH ["flox"] env ∈ r.trace) :=
  ⟨by decide,
    C7_other_variables_pass_through exampleConfig hostOk [("PATH", "/bin")] ["flox"]
      "PATH" (by decide)⟩

/-- C8: at both call sites, `fatal` emits exactly one system-log message at priority
`LOG_ERR` and then exactly one standard-error message, both made of the same context
(`setenv`, or the path given for `%s`) and the text of `strerror(errno)`, and then calls
`exit(EXIT_FAILURE)`, a non-zero status.  For any format and arguments whose behaviour is
defined, `fatal` adds exactly these three events in this order and never returns. -/
theorem C8_fatal_logs_then_prints_then_exits (h : Host) (p : Proc) (path : String) :
    fatal h p "setenv" [] = Res.halt
      ⟨p.trace ++ [Event.syslog LOG_ERR ("setenv: " ++ h.strerror p.errno),
          Event.stderr (h.progname ++ ": setenv: " ++ h.strerror p.errno ++ "\n"),
          Event.exit EXIT_FAILURE], Outcome.exited EXIT_FAILURE⟩ ∧
    fatal h p "%s" [path] = Res.halt
      ⟨p.trace ++ [Event.syslog LOG_ERR (path ++ ": " ++ h.strerror p.errno),
          Event.stderr (h.progname ++ ": " ++ path ++ ": " ++ h.strerror p.errno ++ "\n"),
          Event.exit EXIT_FAILURE], Outcome.exited EXIT_FAILURE⟩ ∧
    EXIT_FAILURE ≠ 0 ∧
    (∀ format ap, fatal h p format ap = Res.undef ∨
      ∃ m1 m2, fatal h p format ap = Res.halt
        ⟨p.trace ++ [Event.syslog LOG_ERR m1, Event.stderr m2, Event.exit EXIT_FAILURE],
          Outcome.exited EXIT_FAILURE⟩) := by
  refine ⟨fatal_setenv h p, fatal_path h p path, by decide, ?_⟩
  intro format ap
  unfold fatal
  cases fatalSformat format with
  | none => exact Or.inl rfl
  | some sformat =>
    dsimp only [vsyslog]
    cases readCStr sformat.cells with
    | none => exact Or.inl rfl
    | some fmt =>
      dsimp only
      cases vformat (h.strerror p.errno).data fmt ap with
      | none => exact Or.inl rfl
      | some msg =>
        dsimp only [verr, Proc.emit]
        cases vformat (h.strerror p.errno).data format.data ap with
        | none => exact Or.inl rfl
        | some msg2 =>
          right
          refine ⟨String.mk msg, h.progname ++ ": " ++ String.mk msg2 ++ ": "
            ++ h.strerror p.errno ++ "\n", ?_⟩
          simp [exit, EXIT_FAILURE]

/-- C9: for every environment, argument vector and outcome of the two calls, `main` does
not return: the process ends inside it, and the run is exactly one of five, fixed by
whether `LOCALE_ARCHIVE` was present and by the outcomes of `setenv` and `execvp`:
`getenv` then a successful `execvp` (image replaced); `getenv`, a failed `execvp` and
`fatal`; `getenv`, a failed `setenv` and `fatal("setenv")`; `getenv`, `setenv` and a
successful `execvp` (image replaced); `getenv`, `setenv`, a failed `execvp` and `fatal`.
The image is replaced exactly when `execvp` is reached and succeeds; in every other
case the process exits with `EXIT_FAILURE` after the two diagnostics of `fatal`.  There
is at most one `setenv` and at most one `execvp` call, and the exit status is never 0. -/
theorem C9_main_is_linear_and_final (cfg : Config) (h : Host) (environ : Env)
    (argv : List String) :
    ∃ r, main cfg h ⟨environ, 0, []⟩ argv = Res.halt r ∧
      start cfg h environ argv = some r ∧
      ((∃ v, Env.get environ "LOCALE_ARCHIVE" = some v ∧ h.execvpError = none ∧
          r = ⟨[Event.getenv "LOCALE_ARCHIVE", Event.execvp cfg.FLOXSH argv environ],
            Outcome.replaced cfg.FLOXSH argv environ⟩) ∨
        (∃ v e, Env.get environ "LOCALE_ARCHIVE" = some v ∧ h.execvpError = some e ∧
          r = ⟨[Event.getenv "LOCALE_ARCHIVE", Event.execvp cfg.FLOXSH argv environ,
              Event.syslog LOG_ERR (cfg.FLOXSH ++ ": " ++ h.strerror e),
              Event.stderr (h.progname ++ ": " ++ cfg.FLOXSH ++ ": " ++ h.strerror e
                ++ "\n"),
              Event.exit EXIT_FAILURE], Outcome.exited EXIT_FAILURE⟩) ∨
        (∃ e, Env.get environ "LOCALE_ARCHIVE" = none ∧ h.setenvError = some e ∧
          r = ⟨[Event.getenv "LOCALE_ARCHIVE",
              Event.setenv "LOCALE_ARCHIVE" cfg.LOCALE_ARCHIVE 1,
              Event.syslog LOG_ERR ("setenv: " ++ h.strerror e),
              Event.stderr (h.progname ++ ": setenv: " ++ h.strerror e ++ "\n"),
              Event.exit EXIT_FAILURE], Outcome.exited EXIT_FAILURE⟩) ∨
        (Env.get environ "LOCALE_ARCHIVE" = none ∧ h.setenvError = none ∧
          h.execvpError = none ∧
          r = ⟨[Event.getenv "LOCALE_ARCHIVE",
              Event.setenv "LOCALE_ARCHIVE" cfg.LOCALE_ARCHIVE 1,
              Event.execvp cfg.FLOXSH argv
                (Env.set environ "LOCALE_ARCHIVE" cfg.LOCALE_ARCHIVE 1)],
            Outcome.replaced cfg.FLOXSH argv
              (Env.set environ "LOCALE_ARCHIVE" cfg.LOCALE_ARCHIVE 1)⟩) ∨
        (∃ e, Env.get environ "LOCALE_ARCHIVE" = none ∧ h.setenvError = none ∧
          h.execvpError = some e ∧
          r = ⟨[Event.getenv "LOCALE_ARCHIVE",
              Event.setenv "LOCALE_ARCHIVE" cfg.LOCALE_ARCHIVE 1,
              Event.execvp cfg.FLOXSH argv
                (Env.set environ "LOCALE_ARCHIVE" cfg.LOCALE_ARCHIVE 1),
              Event.syslog LOG_ERR (cfg.FLOXSH ++ ": " ++ h.strerror e),
              Event.stderr (h.progname ++ ": " ++ cfg.FLOXSH ++ ": " ++ h.strerror e
                ++ "\n"),
              Event.exit EXIT_FAILURE], Outcome.exited EXIT_FAILURE⟩)) ∧
      ((∃ env, r.outcome = Outcome.replaced cfg.FLOXSH argv env) ↔
        ((Env.get environ "LOCALE_ARCHIVE" ≠ none ∨ h.setenvError = none) ∧
          h.execvpError = none)) ∧
      (r.outcome = Outcome.exited EXIT_FAILURE ↔
        ¬ ((Env.get environ "LOCALE_ARCHIVE" ≠ none ∨ h.setenvError = none) ∧
          h.execvpError = none)) ∧
      (∀ f a env, r.outcome = Outcome.replaced f a env →
        r.trace.getLast? = some (Event.execvp f a env)) ∧
      r.trace.map Event.call ∈
        [["getenv", "execvp"],
         ["getenv", "setenv", "execvp"],
         ["getenv", "execvp", "vsyslog", "verr", "exit"],
         ["getenv", "setenv", "execvp", "vsyslog", "verr", "exit"],
         ["getenv", "setenv", "vsyslog", "verr", "exit"]] ∧
      (r.trace.map Event.call).count "execvp" ≤ 1 ∧
      (r.trace.map Event.call).count "setenv" ≤ 1 ∧
      ((h.execvpError = none ∧ ∃ pre env, r.trace = pre ++ [Event.execvp cfg.FLOXSH argv env]
          ∧ r.outcome = Outcome.replaced cfg.FLOXSH argv env) ∨
        (∃ pre m1 m2, r.trace = pre ++ [Event.syslog LOG_ERR m1, Event.stderr m2,
            Event.exit EXIT_FAILURE] ∧ r.outcome = Outcome.exited EXIT_FAILURE)) ∧
      r.outcome ≠ Outcome.exited 0 := by
  cases hv : Env.get environ "LOCALE_ARCHIVE" with
  | some v =>
    cases hx : h.execvpError with
    | none =>
      have hm := main_present_ok cfg h environ argv v hv hx
      refine ⟨_, hm, start_of_main _ _ _ _ _ hm, Or.inl ⟨v, rfl, rfl, rfl⟩, by simp,
        by simp, by simp, by simp [Event.call], by simp [Event.call],
        by simp [Event.call], ?_, by simp⟩
      exact Or.inl ⟨rfl, [Event.getenv "LOCALE_ARCHIVE"], environ, rfl, rfl⟩
    | some e =>
      have hm := main_present_fail cfg h environ argv v e hv hx
      refine ⟨_, hm, start_of_main _ _ _ _ _ hm, Or.inr (Or.inl ⟨v, e, rfl, rfl, rfl⟩),
        by simp, by simp, by simp, by simp [Event.call], by simp [Event.call],
        by simp [Event.call], ?_, by simp [EXIT_FAILURE]⟩
      exact Or.inr ⟨[Event.getenv "LOCALE_ARCHIVE", Event.execvp cfg.FLOXSH argv environ],
        _, _, rfl, rfl⟩
  | none =>
    cases hs : h.setenvError with
    | some e =>
      have hm := main_absent_failed cfg h environ argv e hv hs
      refine ⟨_, hm, start_of_main _ _ _ _ _ hm,
        Or.inr (Or.inr (Or.inl ⟨e, rfl, rfl, rfl⟩)),
        by simp, by simp, by simp, by simp [Event.call], by simp [Event.call],
        by simp [Event.call], ?_, by simp [EXIT_FAILURE]⟩
      exact Or.inr ⟨[Event.getenv "LOCALE_ARCHIVE",
        Event.setenv "LOCALE_ARCHIVE" cfg.LOCALE_ARCHIVE 1], _, _, rfl, rfl⟩
    | none =>
      cases hx : h.execvpError with
      | none =>
        have hm := main_absent_ok_ok cfg h environ argv hv hs hx
        refine ⟨_, hm, start_of_main _ _ _ _ _ hm,
          Or.inr (Or.inr (Or.inr (Or.inl ⟨rfl, rfl, rfl, rfl⟩))),
          by simp, by simp, by simp, by simp [Event.call], by simp [Event.call],
          by simp [Event.call], ?_, by simp⟩
        exact Or.inl ⟨rfl, [Event.getenv "LOCALE_ARCHIVE",
          Event.setenv "LOCALE_ARCHIVE" cfg.LOCALE_ARCHIVE 1], _, rfl, rfl⟩
      | some e =>
        have hm := main_absent_ok_fail cfg h environ argv e hv hs hx
        refine ⟨_, hm, start_of_main _ _ _ _ _ hm,
          Or.inr (Or.inr (Or.inr (Or.inr ⟨e, rfl, rfl, rfl, rfl⟩))),
          by simp, by simp, by simp, by simp [Event.call], by simp [Event.call],
          by simp [Event.call], ?_, by simp [EXIT_FAILURE]⟩
        exact Or.inr ⟨[Event.getenv "LOCALE_ARCHIVE",
          Event.setenv "LOCALE_ARCHIVE" cfg.LOCALE_ARCHIVE 1,
          Event.execvp cfg.FLOXSH argv
            (Env.set environ "LOCALE_ARCHIVE" cfg.LOCALE_ARCHIVE 1)], _, _, rfl, rfl⟩

/-- C10: for every format string without an inner NUL whose size computation does not
wrap in `size_t`, the two `strcpy` calls succeed; the block then holds exactly the
format followed by `: %m` and the terminating NUL, which read back as the string
`format ++ ": %m"`; the block has `len + sizeof(": %m") = len + 5` cells; the indices
stored to are exactly the indices below `len + 5`, so every store is inside the block and
every cell of it is written (index `len` twice: first the NUL of the first copy, then
the colon). -/
theorem C10_sformat_fills_its_buffer (format : String) (hnul : NUL ∉ format.data)
    (hsize : strlen format + sizeof LOG_STRERROR < SIZE_MOD) :
    ∃ b, fatalSformat format = some b ∧
      readCStr b.cells = some (format ++ LOG_STRERROR).data ∧
      b.cells = (format.data ++ LOG_STRERROR.data ++ [NUL]).map some ∧
      sizeof LOG_STRERROR = 5 ∧
      (alloca ((strlen format + sizeof LOG_STRERROR) % SIZE_MOD)).cells.length
        = strlen format + 5 ∧
      b.cells.length = strlen format + 5 ∧
      (∀ i, i ∈ b.writes ↔ i < strlen format + 5) ∧
      b.writes = List.range' 0 (strlen format + 1) ++ List.range' (strlen format) 5 := by
  have hmod : (strlen format + sizeof LOG_STRERROR) % SIZE_MOD
      = strlen format + 5 := Nat.mod_eq_of_lt hsize
  refine ⟨_, fatalSformat_spec format hsize, ?_, rfl, rfl, ?_, ?_, ?_, rfl⟩
  · have hn : NUL ∉ format.data ++ LOG_STRERROR.data := by
      intro hmem
      rcases List.mem_append.mp hmem with hm | hm
      · exact hnul hm
      · revert hm
        decide
    have hread := readCStr_spec (format.data ++ LOG_STRERROR.data) [] hn
    simpa using hread
  · rw [hmod]
    simp [alloca]
  · simp [strlen, LOG_STRERROR]
  · intro i
    simp only [List.mem_append, List.mem_range'_1]
    omega

/-- Witness of C10 at the format `%s` of the second call site. -/
theorem C10_sformat_fills_its_buffer_witness :
    (NUL ∉ "%s".data ∧ strlen "%s" + sizeof LOG_STRERROR < SIZE_MOD) ∧
    ∃ b, fatalSformat "%s" = some b ∧
      readCStr b.cells = some ("%s" ++ LOG_STRERROR).data ∧
      b.cells = ("%s".data ++ LOG_STRERROR.data ++ [NUL]).map some ∧
      sizeof LOG_STRERROR = 5 ∧
      (alloca ((strlen "%s" + sizeof LOG_STRERROR) % SIZE_MOD)).cells.length
        = strlen "%s" + 5 ∧
      b.cells.length = strlen "%s" + 5 ∧
      (∀ i, i ∈ b.writes ↔ i < strlen "%s" + 5) ∧
      b.writes = List.range' 0 (strlen "%s" + 1) ++ List.range' (strlen "%s") 5 :=
  ⟨⟨by decide, by decide⟩,
    C10_sformat_fills_its_buffer "%s" (by decide) (by decide)⟩

end Flox
